import Mathlib

/-!
Shallow embedding of the routing core of gateway/gateway.go (package gateway):
the channel-map builder, destination resolver, identity-cache lookups, the
outbound transform pipeline and the dispatch entry point, together with proofs
about them.

Go maps are modelled as association lists, in-place mutation as explicit state
passing, and fatal misconfiguration exits (os.Exit) as an Option result.
External subsystems referenced but not implemented in the gateway source
(the Go regexp engine, the emoji expander, the tengo scripting runtime and the
handleExtractNicks step defined outside this file's source) are modelled as an
explicit record of uninterpreted functions, so every theorem holds for every
possible behaviour of those subsystems.
-/

/-! ## String helpers mirroring the Go strings package -/

/-- Decides whether the list sub occurs contiguously inside l
(Go strings.Contains on rune lists). -/
def listContains (sub : List Char) : List Char → Bool
  | [] => sub.isEmpty
  | c :: t => sub.isPrefixOf (c :: t) || listContains sub t

/-- Go strings.Contains. -/
def strContainsB (s sub : String) : Bool :=
  listContains sub.data s.data

/-- Go strings.HasPrefix. -/
def strHasPre (pre s : String) : Bool :=
  pre.data.isPrefixOf s.data

/-- Go strings.ToLower (rune-wise lowercasing). -/
def strToLower (s : String) : String :=
  ⟨s.data.map Char.toLower⟩

/-- Auxiliary for strings.Replace with n = 1: replaces the first occurrence
of old by new. -/
def replaceFirstAux (old new : List Char) : List Char → List Char
  | [] => if old.isEmpty then new else []
  | c :: t =>
    if old.isPrefixOf (c :: t) then new ++ (c :: t).drop old.length
    else c :: replaceFirstAux old new t

/-- Go strings.Replace(s, old, new, 1). -/
def replaceFirst (s old new : String) : String :=
  ⟨replaceFirstAux old.data new.data s.data⟩

/-- Auxiliary for strings.Replace with n = -1: replaces every
non-overlapping occurrence of old by new, left to right.  Recursion is on a
fuel bound (one unit per consumed character, initialised to the input
length, so it never runs out); the old pattern is non-empty at every call
site (all patterns are literal placeholders). -/
def replaceAllAux (old new : List Char) : Nat → List Char → List Char
  | _, [] => []
  | 0, l => l
  | Nat.succ n, c :: t =>
    if old.isEmpty = false ∧ old.isPrefixOf (c :: t) then
      new ++ replaceAllAux old new n (t.drop (old.length - 1))
    else
      c :: replaceAllAux old new n t

/-- Go strings.Replace(s, old, new, -1). -/
def replaceAll (s old new : String) : String :=
  ⟨replaceAllAux old.data new.data s.data.length s.data⟩

/-! ## Association-list helpers modelling Go maps -/

/-- Lookup in an association list (Go map read with ok-flag). -/
def alookup {α : Type} (l : List (String × α)) (k : String) : Option α :=
  (l.find? (fun p => p.1 == k)).map Prod.snd

/-- Applies f to every value stored under key k (Go mutation of the entry
reached through the map). -/
def aupdate {α : Type} (l : List (String × α)) (k : String) (f : α → α) :
    List (String × α) :=
  l.map (fun p => if p.1 == k then (p.1, f p.2) else p)

/-- Go map assignment m[k] = v: overwrite when present, append when absent. -/
def aset {α : Type} (l : List (String × α)) (k : String) (v : α) :
    List (String × α) :=
  if (alookup l k).isSome then aupdate l k (fun _ => v) else l ++ [(k, v)]

/-- Go map read without ok-flag on a map[string]bool: missing keys yield the
zero value false. -/
def lookupBool (l : List (String × Bool)) (k : String) : Bool :=
  (alookup l k).getD false

/-! ## Data model -/

/-- Opaque per-channel configuration (config.ChannelOptions); the core never
interprets it. -/
abbrev ChannelOptions := String

/-- config.ChannelInfo: the merged routing descriptor for one
(channel, account) pair. -/
structure ChannelInfo where
  Name : String
  Account : String
  Direction : String
  ID : String
  SameChannel : List (String × Bool)
  Options : ChannelOptions
deriving DecidableEq

/-- config.Bridge: one channel configuration entry of a gateway section. -/
structure BridgeCfg where
  Account : String
  Channel : String
  SameChannel : Bool
  Options : ChannelOptions
deriving DecidableEq

/-- bridge.Bridge together with the per-connection configuration values the
gateway reads through its accessors (GetBool, GetString, GetStringSlice2D). -/
structure Bridge where
  Account : String
  Protocol : String
  Name : String
  StripNick : Bool
  RemoteNickFormat : String
  Label : String
  IconURL : String
  ReplaceNicks : List (List String)
  ReplaceMessages : List (List String)
deriving DecidableEq

/-- config.Message: the routed unit.  Extra is the opaque side-channel
payload, carried but never interpreted by the functions modelled here. -/
structure Message where
  Text : String
  Channel : String
  Username : String
  Avatar : String
  Account : String
  Event : String
  Protocol : String
  Gateway : String
  ParentID : String
  ID : String
  Extra : String
deriving DecidableEq

/-- BrMsgID: one per-destination identity stored in the message cache; the
br pointer of the Go struct is flattened to the protocol and name read
through it. -/
structure BrMsgID where
  brProtocol : String
  brName : String
  ID : String
  ChannelID : String
deriving DecidableEq

/-- The channel-descriptor table keyed by ID (gw.Channels). -/
abbrev Channels := List (String × ChannelInfo)

/-- Gateway state read by the routing core.  Messages models the LRU cache
contents in key order; TengoModifyMessage is the configured script path
(BridgeValues().General.TengoModifyMessage). -/
structure Gateway where
  Name : String
  Channels : Channels
  Bridges : List (String × Bridge)
  Messages : List (String × List BrMsgID)
  TengoModifyMessage : String
deriving DecidableEq

/-- External subsystems used by the pipeline but implemented outside the
gateway source: the regexp engine, the emoji expander, the tengo scripting
runtime, and the handleExtractNicks step (defined in another file of the
package).  All are uninterpreted; theorems quantify over them. -/
structure Externals where
  regexCompile : String → Bool
  regexReplaceAll : String → String → String → String
  emojiReplace : String → String
  extractNicks : Message → Message
  tengoRead : String → Option String
  tengoCompile : String → Bool
  tengoRun : String → Message → Option (String × String)

/-- Zero value standing for the nil bridge a missing gw.Bridges key yields in
Go (where any field access would then panic; theorems that depend on bridge
data state the lookup explicitly). -/
def nilBridge : Bridge :=
  { Account := "", Protocol := "", Name := "", StripNick := false,
    RemoteNickFormat := "", Label := "", IconURL := "",
    ReplaceNicks := [], ReplaceMessages := [] }

/-- Constant apiProtocol = "api". -/
def apiProtocol : String := "api"

/-- Event constant of the config package (not part of this source file);
modelled as the distinct literal used by the repository. -/
def EventJoinLeave : String := "join_leave"

/-- Event constant of the config package, as EventJoinLeave. -/
def EventAvatarDownload : String := "avatar_download"

/-- Event constant of the config package, as EventJoinLeave. -/
def EventUserTyping : String := "user_typing"

/-! ## Small helpers of gateway.go -/

/-- getChannelID: the origin channel ID of a message, channelName + accountID. -/
def getChannelID (msg : Message) : String :=
  msg.Channel ++ msg.Account

/-- isAPI: accounts of the api connector start with "api.". -/
def isAPI (account : String) : Bool :=
  strHasPre "api." account

/-- getProtocol: strings.Split(msg.Account, ".")[0]. -/
def takeUntilDot : List Char → List Char
  | [] => []
  | c :: t => if c = '.' then [] else c :: takeUntilDot t

/-- getProtocol: the protocol part of the message's account. -/
def getProtocol (msg : Message) : String :=
  ⟨takeUntilDot msg.Account.data⟩

/-- validGatewayDest: the gateway-ownership check of gateway.go, which is
exactly equality of the message's gateway name with this gateway's name. -/
def validGatewayDest (gw : Gateway) (msg : Message) : Bool :=
  msg.Gateway == gw.Name

/-! ## Channel map construction (mapChannelConfig) -/

/-- The channel name of a config entry after the in-place rewrites at the top
of mapChannelConfig: api accounts force the name to apiProtocol, irc account
channel names are lowercased. -/
def cfgChannelName (br : BridgeCfg) : String :=
  let c := if isAPI br.Account then apiProtocol else br.Channel
  if strHasPre "irc." br.Account then strToLower c else c

/-- The descriptor ID a config entry resolves to: rewritten channel name ++
account. -/
def cfgID (br : BridgeCfg) : String :=
  cfgChannelName br ++ br.Account

/-- The two fatal misconfiguration shapes of mapChannelConfig (os.Exit(1)):
a mattermost channel starting with "#", and a zulip channel without a
"/topic:" qualifier. -/
def cfgFatal (br : BridgeCfg) : Bool :=
  (strHasPre "mattermost." br.Account && strHasPre "#" (cfgChannelName br)) ||
  (strHasPre "zulip." br.Account && !(strContainsB (cfgChannelName br) "/topic:"))

/-- The body of one loop iteration of mapChannelConfig after the fatal checks:
insert a fresh descriptor or upgrade an existing one's direction to inout,
then set SameChannel[gw.Name] from the entry in either case. -/
def mapChannelConfigOk (gwName : String) (chans : Channels) (br : BridgeCfg)
    (direction : String) : Channels :=
  let ID := cfgID br
  let chans1 :=
    (alookup chans ID).elim
      (chans ++ [(ID,
        { Name := cfgChannelName br, Direction := direction, ID := ID,
          Options := br.Options, Account := br.Account,
          SameChannel := [(gwName, br.SameChannel)] })])
      (fun ch =>
        if ch.Direction != direction then
          aupdate chans ID (fun c => { c with Direction := "inout" })
        else chans)
  aupdate chans1 ID
    (fun c => { c with SameChannel := aset c.SameChannel gwName br.SameChannel })

/-- One loop iteration of mapChannelConfig; none models the os.Exit(1) of a
fatal misconfiguration. -/
def mapChannelConfigStep (gwName : String) (chans : Channels) (br : BridgeCfg)
    (direction : String) : Option Channels :=
  if cfgFatal br then none
  else some (mapChannelConfigOk gwName chans br direction)

/-- mapChannelConfig: folds all entries of one direction into the descriptor
table. -/
def mapChannelConfig (gwName : String) (cfg : List BridgeCfg)
    (direction : String) (chans : Channels) : Option Channels :=
  match cfg with
  | [] => some chans
  | br :: rest =>
    match mapChannelConfigStep gwName chans br direction with
    | none => none
    | some chans1 => mapChannelConfig gwName rest direction chans1

/-- A sequence of mapChannelConfig calls, each with its own entry list and
direction (mapChannels performs the calls for in, out, inout in order; the
merge property is proved for any order). -/
def runMapCalls (gwName : String) :
    List (List BridgeCfg × String) → Channels → Option Channels
  | [], chans => some chans
  | (cfg, d) :: rest, chans =>
    match mapChannelConfig gwName cfg d chans with
    | none => none
    | some chans1 => runMapCalls gwName rest chans1

/-- mapChannels: the three calls of gateway.go in their source order. -/
def mapChannels (gwName : String) (inCfg outCfg inoutCfg : List BridgeCfg) :
    Option Channels :=
  runMapCalls gwName [(inCfg, "in"), (outCfg, "out"), (inoutCfg, "inout")] []

/-! ## Destination resolver (getDestChannel) -/

/-- getDestChannel: computes the descriptors that should receive msg when
fanning out to the candidate destination connection dest. -/
def getDestChannel (gw : Gateway) (msg : Message) (dest : Bridge) :
    List ChannelInfo :=
  if msg.Protocol == apiProtocol && gw.Name != msg.Gateway then []
  else if msg.Event == EventJoinLeave && getProtocol msg == "discord" &&
      msg.Channel == "" then
    gw.Channels.filterMap (fun p =>
      if p.2.Account == dest.Account && strContainsB p.2.Direction "out" &&
          validGatewayDest gw msg then some p.2 else none)
  else if gw.Channels.any (fun p =>
      p.2.ID == getChannelID msg && !(strContainsB p.2.Direction "in")) then []
  else
    gw.Channels.filterMap (fun p =>
      if (alookup gw.Channels (getChannelID msg)).isNone then none
      else if lookupBool p.2.SameChannel msg.Gateway then
        (if msg.Channel == p.2.Name && msg.Account != dest.Account then
          some p.2 else none)
      else if strContainsB p.2.Direction "out" && p.2.Account == dest.Account &&
          validGatewayDest gw msg then some p.2 else none)

/-! ## Identity-cache lookups -/

/-- getDestMsgID: finds the previously sent copy of the cached origin message
msgID on this destination connection and channel, returning its raw ID with
the destination protocol prefix stripped, or the empty string. -/
def getDestMsgID (gw : Gateway) (msgID : String) (dest : Bridge)
    (channel : ChannelInfo) : String :=
  match alookup gw.Messages msgID with
  | some IDs =>
    match IDs.find? (fun id => dest.Protocol == id.brProtocol &&
        dest.Name == id.brName && channel.ID == id.ChannelID) with
    | some id => replaceFirst id.ID (dest.Protocol ++ " ") ""
    | none => ""
  | none => ""

/-- FindCanonicalMsgID: returns the ID under which a message was stored in
the cache.  The composite key protocol + " " + mID is checked first; failing
that, every entry's identity list is scanned for it and the matching entry's
origin key is returned with the first occurrence of protocol + " " removed. -/
def FindCanonicalMsgID (gw : Gateway) (protocol mID : String) : String :=
  let ID := protocol ++ " " ++ mID
  if gw.Messages.any (fun p => p.1 == ID) then mID
  else
    match gw.Messages.find? (fun p => p.2.any (fun d => d.ID == ID)) with
    | some p => replaceFirst p.1 (protocol ++ " ") ""
    | none => ""

/-! ## Transform pipeline -/

/-- The regexp.MustCompile("[^a-zA-Z0-9]+") rewrite of StripNick: every
non-alphanumeric character is removed. -/
def stripNonAlnum (s : String) : String :=
  ⟨s.data.filter Char.isAlphanum⟩

/-- The shared shape of the ReplaceNicks and ReplaceMessages loops: each
(search, replace) pair is applied in order through the regexp engine; a
compile failure breaks out of the loop, keeping the value built so far. -/
def replaceLoop (X : Externals) : List (List String) → String → String
  | [], u => u
  | outer :: rest, u =>
    let search := outer.getD 0 ""
    let repl := outer.getD 1 ""
    if X.regexCompile search then
      replaceLoop X rest (X.regexReplaceAll search repl u)
    else u

/-- The NOPINGNICK variant of a nick: the first rune isolated behind a
zero-width space (gateway.go computes the byte offset of the second rune). -/
def nopingNick (u : String) : String :=
  match u.data with
  | [] => "\u200B"
  | c :: t => ⟨[c]⟩ ++ "\u200B" ++ (⟨t⟩ : String)

/-- modifyUsername: stamps the message's protocol from its origin bridge,
optionally strips and rewrites the username in place, and renders the
destination's RemoteNickFormat template.  Returns the rendered nick together
with the updated message (the Go function mutates its pointer argument). -/
def modifyUsername (X : Externals) (gw : Gateway) (m : Message)
    (dest : Bridge) : String × Message :=
  let br := (alookup gw.Bridges m.Account).getD nilBridge
  let m := { m with Protocol := br.Protocol }
  let m :=
    if dest.StripNick then { m with Username := stripNonAlnum m.Username }
    else m
  let nick := dest.RemoteNickFormat
  let m := { m with Username := replaceLoop X br.ReplaceNicks m.Username }
  let nick :=
    if m.Username.length > 0 then
      replaceAll nick "{NOPINGNICK}" (nopingNick m.Username)
    else nick
  let nick := replaceAll nick "{BRIDGE}" br.Name
  let nick := replaceAll nick "{PROTOCOL}" br.Protocol
  let nick := replaceAll nick "{GATEWAY}" gw.Name
  let nick := replaceAll nick "{LABEL}" br.Label
  let nick := replaceAll nick "{NICK}" m.Username
  let nick := replaceAll nick "{CHANNEL}" m.Channel
  (nick, m)

/-- modifyAvatar: renders the destination IconURL template and installs it on
the message when the message carries no avatar yet; returns the resulting
avatar together with the updated message. -/
def modifyAvatar (m : Message) (dest : Bridge) : String × Message :=
  let iconurl := replaceAll dest.IconURL "{NICK}" m.Username
  if m.Avatar == "" then (iconurl, { m with Avatar := iconurl })
  else (m.Avatar, m)

/-- modifyMessageTengo: runs the configured script over the message; returns
the (possibly rewritten) message together with the error of the failing
stage, if any.  Every failure path leaves the message untouched. -/
def modifyMessageTengo (X : Externals) (filename : String) (m : Message) :
    Message × Option String :=
  if filename == "" then (m, none)
  else
    match X.tengoRead filename with
    | none => (m, some "read failure")
    | some src =>
      if X.tengoCompile src then
        match X.tengoRun src m with
        | none => (m, some "run failure")
        | some (t, u) => ({ m with Text := t, Username := u }, none)
      else (m, some "compile failure")

/-- modifyMessage: the per-message pipeline of gateway.go: scripting hook
(failures only logged), emoji expansion, ReplaceMessages substitution, the
extract-nicks step, and gateway-name stamping for non-api messages. -/
def modifyMessage (X : Externals) (gw : Gateway) (m : Message) : Message :=
  let m := (modifyMessageTengo X gw.TengoModifyMessage m).1
  let m := { m with Text := X.emojiReplace m.Text }
  let br := (alookup gw.Bridges m.Account).getD nilBridge
  let m := { m with Text := replaceLoop X br.ReplaceMessages m.Text }
  let m := X.extractNicks m
  if m.Protocol != apiProtocol then { m with Gateway := gw.Name } else m

/-! ## Dispatch (SendMessage) -/

/-- Outcome of one SendMessage call: sent is the copy handed to the
destination's send capability (none when dispatch returned before invoking
it), rmsgAfter is the inbound original after the in-place rewrites it
underwent, and pluginRelay records publication on the mattermost plugin
stream. -/
structure SendOutcome where
  sent : Option Message
  rmsgAfter : Message
  pluginRelay : Bool
deriving DecidableEq

/-- SendMessage: dispatches one copy of rmsg to a resolved destination
channel.  Mirrors gateway.go: the self-echo checks come first; the copy's
channel, avatar, username, ID and ParentID are then rewritten, with
modifyAvatar and modifyUsername applied to the original rmsg as in the
source. -/
def SendMessage (X : Externals) (gw : Gateway) (rmsg : Message)
    (dest : Bridge) (channel : ChannelInfo) (canonicalParentMsgID : String) :
    SendOutcome :=
  let msg := rmsg
  if (if rmsg.Event == EventAvatarDownload then
        channel.ID != getChannelID rmsg
      else channel.ID == getChannelID rmsg) then
    { sent := none, rmsgAfter := rmsg, pluginRelay := false }
  else
    let msg := { msg with Channel := channel.Name }
    let avr := modifyAvatar rmsg dest
    let msg := { msg with Avatar := avr.1 }
    let unr := modifyUsername X gw avr.2 dest
    let msg := { msg with Username := unr.1 }
    let rmsg2 := unr.2
    let msg :=
      { msg with ID := getDestMsgID gw (rmsg2.Protocol ++ " " ++ rmsg2.ID)
                        dest channel }
    let msg :=
      if dest.Protocol == apiProtocol then { msg with Channel := rmsg2.Channel }
      else msg
    let pid := getDestMsgID gw (rmsg2.Protocol ++ " " ++ canonicalParentMsgID)
                 dest channel
    let pid := if pid == "" then canonicalParentMsgID else pid
    let pid :=
      if pid == "" && rmsg2.ParentID != "" then "msg-parent-not-found" else pid
    let msg := { msg with ParentID := pid }
    { sent := some msg, rmsgAfter := rmsg2,
      pluginRelay := dest.Account == "mattermost.plugin" }

/-! ## Concrete instances used by witnesses and counterexamples -/

/-- Message with every field empty, a base for concrete instances. -/
def msgStub : Message :=
  { Text := "", Channel := "", Username := "", Avatar := "", Account := "",
    Event := "", Protocol := "", Gateway := "", ParentID := "", ID := "",
    Extra := "" }

/-- Externals instance on which every hook fails or acts as the identity,
used for concrete evaluation. -/
def XStub : Externals :=
  { regexCompile := fun _ => false, regexReplaceAll := fun _ _ s => s,
    emojiReplace := fun s => s, extractNicks := fun m => m,
    tengoRead := fun _ => none, tengoCompile := fun _ => false,
    tengoRun := fun _ _ => none }

/-- An out-only descriptor with empty channel name on a discord account. -/
def chC2 : ChannelInfo :=
  { Name := "", Account := "discord.x", Direction := "out", ID := "discord.x",
    SameChannel := [], Options := "" }

/-- Gateway holding only chC2. -/
def gwC2 : Gateway :=
  { Name := "g", Channels := [("discord.x", chC2)], Bridges := [],
    Messages := [], TengoModifyMessage := "" }

/-- Candidate destination connection on the same discord account. -/
def destC2 : Bridge :=
  { nilBridge with Account := "discord.x", Protocol := "discord" }

/-- Whole-connection discord join/leave message originating from chC2. -/
def msgC2 : Message :=
  { msgStub with
    Channel := "", Account := "discord.x",
    Event := EventJoinLeave, Protocol := "discord", Gateway := "g" }

/-- Origin descriptor for the same-channel instances: direction in. -/
def srcC3 : ChannelInfo :=
  { Name := "room", Account := "irc.a", Direction := "in", ID := "roomirc.a",
    SameChannel := [], Options := "" }

/-- Same-channel-mirrored descriptor living on the destination's own
account. -/
def dC3 : ChannelInfo :=
  { Name := "room", Account := "slack.b", Direction := "out",
    ID := "roomslack.b", SameChannel := [("g", true)], Options := "" }

/-- Gateway holding srcC3 and dC3. -/
def gwC3 : Gateway :=
  { Name := "g", Channels := [("roomirc.a", srcC3), ("roomslack.b", dC3)],
    Bridges := [], Messages := [], TengoModifyMessage := "" }

/-- Candidate destination connection for the same-channel instances. -/
def destC3 : Bridge :=
  { nilBridge with Account := "slack.b", Protocol := "slack" }

/-- Ordinary message from srcC3's channel. -/
def msgC3 : Message :=
  { msgStub with
    Text := "t", Channel := "room", Account := "irc.a",
    Event := "text", Protocol := "irc", Gateway := "g", Username := "alice" }

/-- Origin descriptor for the gateway-ownership instances. -/
def srcC4 : ChannelInfo :=
  { Name := "room", Account := "irc.a", Direction := "in", ID := "roomirc.a",
    SameChannel := [], Options := "" }

/-- Output descriptor on the destination account, no same-channel flag. -/
def dC4 : ChannelInfo :=
  { Name := "sink", Account := "slack.b", Direction := "out",
    ID := "sinkslack.b", SameChannel := [], Options := "" }

/-- Gateway holding srcC4 and dC4. -/
def gwC4 : Gateway :=
  { Name := "g", Channels := [("roomirc.a", srcC4), ("sinkslack.b", dC4)],
    Bridges := [], Messages := [], TengoModifyMessage := "" }

/-- Candidate destination connection for the gateway-ownership instances. -/
def destC4 : Bridge :=
  { nilBridge with Account := "slack.b", Protocol := "slack" }

/-- Message whose gateway name is unset (empty). -/
def msgC4 : Message :=
  { msgStub with
    Text := "t", Channel := "room", Account := "irc.a",
    Event := "text", Protocol := "irc", Gateway := "", Username := "alice" }

/-- Message with gateway name set, from srcC4's channel. -/
def msgC4g : Message := { msgC4 with Gateway := "g" }

/-- Avatar-download message from channel roomirc.a. -/
def msgC5 : Message :=
  { msgStub with
    Channel := "room", Account := "irc.a", Event := EventAvatarDownload,
    Username := "alice", Gateway := "g" }

/-- The origin channel descriptor of msgC5 itself. -/
def chanC5 : ChannelInfo :=
  { Name := "room", Account := "irc.a", Direction := "inout",
    ID := "roomirc.a", SameChannel := [], Options := "" }

/-- Gateway with no bridges and an empty cache. -/
def gwC5 : Gateway :=
  { Name := "g", Channels := [("roomirc.a", chanC5)], Bridges := [],
    Messages := [], TengoModifyMessage := "" }

/-- Destination bridge for the dispatch instances. -/
def destC5 : Bridge :=
  { nilBridge with Account := "slack.b", Protocol := "slack" }

/-- Ordinary message carrying a parent, for the ParentID instances. -/
def rmsgC6 : Message :=
  { msgStub with
    Text := "t", Channel := "room", Account := "irc.a", Event := "text",
    Protocol := "irc", Gateway := "g", Username := "alice",
    ParentID := "p42", ID := "m1" }

/-- Origin bridge of the dispatch instances. -/
def brIrc : Bridge :=
  { nilBridge with Account := "irc.a", Protocol := "irc", Name := "freenode" }

/-- Gateway with an empty identity cache and the irc origin bridge. -/
def gwC6 : Gateway :=
  { Name := "g", Channels := [], Bridges := [("irc.a", brIrc)], Messages := [],
    TengoModifyMessage := "" }

/-- Destination channel distinct from rmsgC6's origin. -/
def chanC6 : ChannelInfo :=
  { Name := "sink", Account := "slack.b", Direction := "out",
    ID := "sinkslack.b", SameChannel := [], Options := "" }

/-- Destination bridge for the ParentID instances. -/
def destC6 : Bridge :=
  { nilBridge with Account := "slack.b", Protocol := "slack" }

/-- Gateway whose cache holds the key "irc msg42" with no identities. -/
def gwC7 : Gateway :=
  { Name := "g", Channels := [], Bridges := [],
    Messages := [("irc msg42", [])], TengoModifyMessage := "" }

/-- Gateway with a configured script path. -/
def gwC8 : Gateway :=
  { Name := "g", Channels := [], Bridges := [],
    Messages := [], TengoModifyMessage := "script.tengo" }

/-- Message fed through the scripting hook instances. -/
def mC8 : Message := { msgStub with Text := "hi", Username := "alice" }

/-- Destination bridge whose IconURL template is non-empty. -/
def destC9 : Bridge :=
  { nilBridge with
    Account := "slack.b", Protocol := "slack", IconURL := "http://i/{NICK}" }

/-- Message without an avatar, dispatched in the mutation instances. -/
def rmsgC9 : Message :=
  { msgStub with
    Text := "t", Channel := "room", Account := "irc.a", Event := "text",
    Protocol := "irc", Gateway := "g", Username := "alice", ID := "m1" }

/-- Message from a channel that no descriptor of gwC4 covers. -/
def msgC10 : Message :=
  { msgStub with
    Text := "t", Channel := "nowhere", Account := "irc.a", Event := "text",
    Protocol := "irc", Gateway := "g", Username := "alice" }

/-- First channel-map entry of the merge instance. -/
def eW1 : BridgeCfg :=
  { Account := "a", Channel := "c", SameChannel := false, Options := "" }

/-- Second channel-map entry of the merge instance, same ID as eW1. -/
def eW2 : BridgeCfg :=
  { Account := "a", Channel := "c", SameChannel := false, Options := "" }

/-- Two mapChannelConfig calls with differing directions on the same entry. -/
def callsW : List (List BridgeCfg × String) := [([eW1], "in"), ([eW2], "out")]

/-- The channel map the merge instance produces. -/
def chansFW : Channels := (runMapCalls "g" callsW []).getD []

/-- An inout descriptor present before a later call, for the no-downgrade
instance. -/
def chW0 : ChannelInfo :=
  { Name := "c", Account := "a", Direction := "inout", ID := "ca",
    SameChannel := [], Options := "" }

/-- A starting map already holding an inout descriptor, for the
no-downgrade instance. -/
def chans0W : Channels := [("ca", chW0)]

/-- The map produced from chans0W by a later in-direction call on the same
entry. -/
def chansGW : Channels := (runMapCalls "g" [([eW1], "in")] chans0W).getD []

/-- Ordinary text message originating from the out-only descriptor chC2. -/
def msgC2t : Message := { msgC2 with Event := "text" }

/-! ## Lemmas about the association-list helpers -/

theorem alookup_nil {α : Type} (k : String) :
    alookup ([] : List (String × α)) k = none := rfl

theorem alookup_cons {α : Type} (p : String × α) (l : List (String × α))
    (k : String) :
    alookup (p :: l) k = if p.1 = k then some p.2 else alookup l k := by
  by_cases h : p.1 = k <;> simp [alookup, List.find?_cons, h]

theorem alookup_append_some {α : Type} {l m : List (String × α)} {k : String}
    {v : α} (h : alookup l k = some v) : alookup (l ++ m) k = some v := by
  induction l with
  | nil => simp [alookup_nil] at h
  | cons p t ih =>
    rw [alookup_cons] at h
    rw [List.cons_append, alookup_cons]
    by_cases hp : p.1 = k
    · rw [if_pos hp] at h ⊢
      exact h
    · rw [if_neg hp] at h ⊢
      exact ih h

theorem alookup_append_none {α : Type} {l : List (String × α)} {k : String}
    (m : List (String × α)) (h : alookup l k = none) :
    alookup (l ++ m) k = alookup m k := by
  induction l with
  | nil => rfl
  | cons p t ih =>
    rw [alookup_cons] at h
    by_cases hp : p.1 = k
    · simp [hp] at h
    · rw [List.cons_append, alookup_cons, if_neg hp]
      rw [if_neg hp] at h
      exact ih h

theorem alookup_aupdate {α : Type} (l : List (String × α)) (k : String)
    (f : α → α) (k' : String) :
    alookup (aupdate l k f) k' =
      if k' = k then (alookup l k').map f else alookup l k' := by
  induction l with
  | nil => simp [aupdate, alookup_nil]
  | cons p t ih =>
    have hcons : aupdate (p :: t) k f =
        (if p.1 = k then (p.1, f p.2) else p) :: aupdate t k f := by
      simp [aupdate]
    rw [hcons]
    by_cases h3 : k' = k
    · subst h3
      by_cases h2 : p.1 = k'
      · simp [h2, alookup_cons]
      · simp [h2, alookup_cons, ih]
    · have h4 : ¬ (k = k') := fun hh => h3 hh.symm
      by_cases h2 : p.1 = k'
      · have h1 : ¬ (p.1 = k) := fun hh => h3 (by rw [← h2, hh])
        simp [h1, h2, h3, alookup_cons]
      · by_cases h1 : p.1 = k <;> simp [h1, h2, h3, h4, alookup_cons, ih]

theorem alookup_none_of_all {α : Type} {l : List (String × α)} {k : String}
    (h : ∀ p ∈ l, p.1 ≠ k) : alookup l k = none := by
  induction l with
  | nil => rfl
  | cons p t ih =>
    rw [alookup_cons, if_neg (h p (List.mem_cons_self p t))]
    exact ih (fun q hq => h q (List.mem_cons_of_mem p hq))

/-! ## Claim C2: out-only origin channels resolve no destinations -/

/-- Claim C2, counterexample: the claim as stated is false.  The descriptor
chC2 has ID equal to msgC2's origin channel ID and direction exactly out, yet
getDestChannel is non-empty for the candidate destination destC2, because the
whole-connection discord join/leave branch runs before the in-only origin
check. -/
theorem getDestChannel_out_only_cex :
    ("discord.x", chC2) ∈ gwC2.Channels ∧ chC2.ID = getChannelID msgC2 ∧
    chC2.Direction = "out" ∧ getDestChannel gwC2 msgC2 destC2 ≠ [] := by
  decide

/-- Claim C2, amended: for every message that does not match the
whole-connection discord join/leave special case, if some descriptor's ID
equals the message's origin channel ID and its direction is exactly out,
then getDestChannel returns the empty list for every candidate destination
connection. -/
theorem getDestChannel_out_only_empty (gw : Gateway) (msg : Message)
    (dest : Bridge) (p : String × ChannelInfo)
    (hmem : p ∈ gw.Channels) (hid : p.2.ID = getChannelID msg)
    (hdir : p.2.Direction = "out")
    (hspecial : (msg.Event == EventJoinLeave && getProtocol msg == "discord" &&
      msg.Channel == "") = false) :
    getDestChannel gw msg dest = [] := by
  have hoc : strContainsB "out" "in" = false := by decide
  have hany : (gw.Channels.any fun q =>
      q.2.ID == getChannelID msg && !(strContainsB q.2.Direction "in")) = true := by
    refine List.any_eq_true.mpr ⟨p, hmem, ?_⟩
    rw [hid, hdir]
    simp [hoc]
  by_cases hapi : (msg.Protocol == apiProtocol && gw.Name != msg.Gateway) = true
  · simp [getDestChannel, hapi]
  · rw [Bool.not_eq_true] at hapi
    simp [getDestChannel, hapi, hspecial, hany]

/-- Claim C2, witness: a concrete ordinary message from the out-only channel
chC2 resolves to no destination. -/
theorem getDestChannel_out_only_empty_instance :
    getDestChannel gwC2 msgC2t destC2 = [] :=
  getDestChannel_out_only_empty gwC2 msgC2t destC2 ("discord.x", chC2)
    (by decide) (by decide) (by decide) (by decide)

/-! ## Claim C10: unconfigured origin channels resolve no destinations -/

/-- Claim C10: for every message that is not the whole-connection discord
join/leave special case, if no descriptor of the channel map has the
message's origin channel ID, getDestChannel returns the empty list for every
candidate destination connection, same-channel descriptors included. -/
theorem getDestChannel_unknown_origin_empty (gw : Gateway) (msg : Message)
    (dest : Bridge)
    (hWF : ∀ p ∈ gw.Channels, p.1 = p.2.ID)
    (habs : ∀ p ∈ gw.Channels, p.2.ID ≠ getChannelID msg)
    (hspecial : (msg.Event == EventJoinLeave && getProtocol msg == "discord" &&
      msg.Channel == "") = false) :
    getDestChannel gw msg dest = [] := by
  by_cases hapi : (msg.Protocol == apiProtocol && gw.Name != msg.Gateway) = true
  · simp [getDestChannel, hapi]
  · rw [Bool.not_eq_true] at hapi
    have hany : (gw.Channels.any fun q =>
        q.2.ID == getChannelID msg && !(strContainsB q.2.Direction "in")) = false := by
      refine List.any_eq_false.mpr ?_
      intro q hq
      simp [habs q hq]
    have hnone : alookup gw.Channels (getChannelID msg) = none :=
      alookup_none_of_all (fun p hp => by rw [hWF p hp]; exact habs p hp)
    simp [getDestChannel, hapi, hspecial, hany, hnone]

/-- Claim C10, witness: a concrete message from a channel no descriptor of
gwC4 covers resolves to no destination. -/
theorem getDestChannel_unknown_origin_empty_instance :
    getDestChannel gwC4 msgC10 destC4 = [] :=
  getDestChannel_unknown_origin_empty gwC4 msgC10 destC4
    (by decide) (by decide) (by decide)

/-! ## Claims C3 and C4: the general-case resolution loop -/

/-- In the general case (no api mismatch, not the discord join/leave special
case, origin descriptor present with a direction containing in),
getDestChannel is the filter of the channel map by the same-channel branch or
by the direction, account and gateway-ownership conditions. -/
theorem getDestChannel_general_eq (gw : Gateway) (msg : Message) (dest : Bridge)
    (hapi : (msg.Protocol == apiProtocol && gw.Name != msg.Gateway) = false)
    (hspecial : (msg.Event == EventJoinLeave && getProtocol msg == "discord" &&
      msg.Channel == "") = false)
    (hin : (gw.Channels.any fun q =>
      q.2.ID == getChannelID msg && !(strContainsB q.2.Direction "in")) = false)
    (hfound : (alookup gw.Channels (getChannelID msg)).isNone = false) :
    getDestChannel gw msg dest = gw.Channels.filterMap (fun p =>
      if lookupBool p.2.SameChannel msg.Gateway then
        (if msg.Channel == p.2.Name && msg.Account != dest.Account then
          some p.2 else none)
      else if strContainsB p.2.Direction "out" && p.2.Account == dest.Account &&
          validGatewayDest gw msg then some p.2 else none) := by
  simp [getDestChannel, hapi, hspecial, hin, hfound]

/-- Claim C3, amended: in the general case, a descriptor whose same-channel
flag is set for the message's gateway is included exactly when its name
equals the message's channel name and the MESSAGE's account differs from the
candidate destination connection's account (the code compares msg.Account,
not the descriptor's account, with dest.Account); the direction and
gateway-ownership filters are bypassed. -/
theorem getDestChannel_samechannel_iff (gw : Gateway) (msg : Message)
    (dest : Bridge) (p : String × ChannelInfo)
    (hapi : (msg.Protocol == apiProtocol && gw.Name != msg.Gateway) = false)
    (hspecial : (msg.Event == EventJoinLeave && getProtocol msg == "discord" &&
      msg.Channel == "") = false)
    (hin : (gw.Channels.any fun q =>
      q.2.ID == getChannelID msg && !(strContainsB q.2.Direction "in")) = false)
    (hfound : (alookup gw.Channels (getChannelID msg)).isNone = false)
    (hWF : ∀ q ∈ gw.Channels, q.1 = q.2.ID)
    (hp : p ∈ gw.Channels)
    (hsc : lookupBool p.2.SameChannel msg.Gateway = true) :
    p.2 ∈ getDestChannel gw msg dest ↔
      (msg.Channel = p.2.Name ∧ msg.Account ≠ dest.Account) := by
  rw [getDestChannel_general_eq gw msg dest hapi hspecial hin hfound,
    List.mem_filterMap]
  constructor
  · rintro ⟨q, hq, hfq⟩
    have hq2 : q.2 = p.2 := by
      by_cases h1 : lookupBool q.2.SameChannel msg.Gateway = true
      · rw [if_pos h1] at hfq
        by_cases h2 : (msg.Channel == q.2.Name &&
            msg.Account != dest.Account) = true
        · rw [if_pos h2] at hfq
          exact Option.some.inj hfq
        · rw [if_neg h2] at hfq
          cases hfq
      · rw [if_neg h1] at hfq
        by_cases h2 : (strContainsB q.2.Direction "out" &&
            q.2.Account == dest.Account && validGatewayDest gw msg) = true
        · rw [if_pos h2] at hfq
          exact Option.some.inj hfq
        · rw [if_neg h2] at hfq
          cases hfq
    have hkey : q.1 = p.1 := by rw [hWF q hq, hWF p hp, hq2]
    have hqp : q = p := by
      obtain ⟨q1, q2⟩ := q
      obtain ⟨p1, p2⟩ := p
      simp only at hkey hq2
      rw [hkey, hq2]
    subst hqp
    rw [if_pos hsc] at hfq
    by_cases h2 : (msg.Channel == q.2.Name && msg.Account != dest.Account) = true
    · simpa [Bool.and_eq_true, beq_iff_eq, bne_iff_ne] using h2
    · rw [if_neg h2] at hfq
      cases hfq
  · rintro ⟨h1, h2⟩
    refine ⟨p, hp, ?_⟩
    rw [if_pos hsc, if_pos (by simp [h1, h2])]

/-- Claim C3, counterexample: the claim as stated is false.  The
same-channel descriptor dC3 lives on the destination connection's own
account, so the claim's condition requires it to be excluded, yet the code
includes it because it compares the message's account with the destination
account. -/
theorem getDestChannel_samechannel_cex :
    lookupBool dC3.SameChannel msgC3.Gateway = true ∧
    dC3.Name = msgC3.Channel ∧ dC3.Account = destC3.Account ∧
    msgC3.Account ≠ destC3.Account ∧
    dC3 ∈ getDestChannel gwC3 msgC3 destC3 := by
  decide

/-- Claim C3, witness: the amended characterization applied to the concrete
gateway gwC3 shows dC3 resolved for msgC3. -/
theorem getDestChannel_samechannel_iff_instance :
    dC3 ∈ getDestChannel gwC3 msgC3 destC3 :=
  (getDestChannel_samechannel_iff gwC3 msgC3 destC3 ("roomslack.b", dC3)
    (by decide) (by decide) (by decide) (by decide) (by decide) (by decide)
    (by decide)).mpr ⟨rfl, by decide⟩

/-- Claim C4, amended: in the general case, a descriptor without the
same-channel flag is included exactly when its direction contains out, its
account equals the candidate destination connection's account, and the
message's target gateway name equals this gateway's name (the code's
validGatewayDest is plain equality: an unset gateway name does NOT pass). -/
theorem getDestChannel_direction_iff (gw : Gateway) (msg : Message)
    (dest : Bridge) (p : String × ChannelInfo)
    (hapi : (msg.Protocol == apiProtocol && gw.Name != msg.Gateway) = false)
    (hspecial : (msg.Event == EventJoinLeave && getProtocol msg == "discord" &&
      msg.Channel == "") = false)
    (hin : (gw.Channels.any fun q =>
      q.2.ID == getChannelID msg && !(strContainsB q.2.Direction "in")) = false)
    (hfound : (alookup gw.Channels (getChannelID msg)).isNone = false)
    (hWF : ∀ q ∈ gw.Channels, q.1 = q.2.ID)
    (hp : p ∈ gw.Channels)
    (hsc : lookupBool p.2.SameChannel msg.Gateway = false) :
    p.2 ∈ getDestChannel gw msg dest ↔
      (strContainsB p.2.Direction "out" = true ∧
       p.2.Account = dest.Account ∧ msg.Gateway = gw.Name) := by
  rw [getDestChannel_general_eq gw msg dest hapi hspecial hin hfound,
    List.mem_filterMap]
  constructor
  · rintro ⟨q, hq, hfq⟩
    have hq2 : q.2 = p.2 := by
      by_cases h1 : lookupBool q.2.SameChannel msg.Gateway = true
      · rw [if_pos h1] at hfq
        by_cases h2 : (msg.Channel == q.2.Name &&
            msg.Account != dest.Account) = true
        · rw [if_pos h2] at hfq
          exact Option.some.inj hfq
        · rw [if_neg h2] at hfq
          cases hfq
      · rw [if_neg h1] at hfq
        by_cases h2 : (strContainsB q.2.Direction "out" &&
            q.2.Account == dest.Account && validGatewayDest gw msg) = true
        · rw [if_pos h2] at hfq
          exact Option.some.inj hfq
        · rw [if_neg h2] at hfq
          cases hfq
    have hkey : q.1 = p.1 := by rw [hWF q hq, hWF p hp, hq2]
    have hqp : q = p := by
      obtain ⟨q1, q2⟩ := q
      obtain ⟨p1, p2⟩ := p
      simp only at hkey hq2
      rw [hkey, hq2]
    subst hqp
    rw [if_neg (by rw [hsc]; exact Bool.false_ne_true)] at hfq
    by_cases h2 : (strContainsB q.2.Direction "out" &&
        q.2.Account == dest.Account && validGatewayDest gw msg) = true
    · simpa [Bool.and_eq_true, beq_iff_eq, validGatewayDest, and_assoc] using h2
    · rw [if_neg h2] at hfq
      cases hfq
  · rintro ⟨h1, h2, h3⟩
    refine ⟨p, hp, ?_⟩
    rw [if_neg (by rw [hsc]; exact Bool.false_ne_true),
      if_pos (by simp [h1, h2, h3, validGatewayDest])]

/-- Claim C4, counterexample: the claim as stated is false.  With the
message's target gateway name unset (empty) and this gateway named g, the
claim requires the out-direction descriptor dC4 on the destination's account
to be included, but validGatewayDest is plain equality and the code excludes
it. -/
theorem getDestChannel_gateway_unset_cex :
    msgC4.Gateway = "" ∧ gwC4.Name = "g" ∧
    strContainsB dC4.Direction "out" = true ∧ dC4.Account = destC4.Account ∧
    lookupBool dC4.SameChannel msgC4.Gateway = false ∧
    validGatewayDest gwC4 msgC4 = false ∧
    dC4 ∉ getDestChannel gwC4 msgC4 destC4 := by
  decide

/-- Claim C4, witness: the amended characterization applied to the concrete
gateway gwC4 shows dC4 resolved when the message's gateway name matches. -/
theorem getDestChannel_direction_iff_instance :
    dC4 ∈ getDestChannel gwC4 msgC4g destC4 :=
  (getDestChannel_direction_iff gwC4 msgC4g destC4 ("sinkslack.b", dC4)
    (by decide) (by decide) (by decide) (by decide) (by decide) (by decide)
    (by decide)).mpr ⟨by decide, rfl, rfl⟩

/-! ## Lemmas about the rewrite helpers of the pipeline -/

/-- modifyAvatar only ever changes the Avatar field of its message, to the
value it returns. -/
theorem modifyAvatar_snd (m : Message) (dest : Bridge) :
    (modifyAvatar m dest).2 = { m with Avatar := (modifyAvatar m dest).1 } := by
  unfold modifyAvatar
  by_cases h : (m.Avatar == "") = true
  · simp [h]
  · simp [h]

/-- modifyUsername only ever changes the Protocol and Username fields of its
message: Protocol is stamped from the origin bridge and Username is the
strip/replace rewrite of the incoming username. -/
theorem modifyUsername_snd (X : Externals) (gw : Gateway) (m : Message)
    (dest : Bridge) :
    (modifyUsername X gw m dest).2 =
      { m with
        Protocol := ((alookup gw.Bridges m.Account).getD nilBridge).Protocol,
        Username := replaceLoop X
          ((alookup gw.Bridges m.Account).getD nilBridge).ReplaceNicks
          (if dest.StripNick then stripNonAlnum m.Username else m.Username) } := by
  unfold modifyUsername
  by_cases h : dest.StripNick = true <;> simp [h]

/-! ## Claim C5: self-echo suppression in SendMessage -/

/-- Claim C5: whenever SendMessage actually invokes the destination's send
capability, the destination channel is the origin channel exactly for an
avatar-download event: every other event kind is never delivered back to its
origin channel, and an avatar-download event is delivered only to its origin
channel. -/
theorem sendMessage_self_echo (X : Externals) (gw : Gateway) (rmsg : Message)
    (dest : Bridge) (channel : ChannelInfo) (cpid : String)
    (h : (SendMessage X gw rmsg dest channel cpid).sent ≠ none) :
    (rmsg.Event = EventAvatarDownload ↔ channel.ID = getChannelID rmsg) := by
  have hguard : (if rmsg.Event == EventAvatarDownload then
      channel.ID != getChannelID rmsg
    else channel.ID == getChannelID rmsg) = false := by
    by_contra hg
    rw [Bool.not_eq_false] at hg
    apply h
    simp only [SendMessage]
    rw [if_pos hg]
  by_cases he : (rmsg.Event == EventAvatarDownload) = true
  · rw [if_pos he] at hguard
    have h1 : rmsg.Event = EventAvatarDownload := by simpa using he
    have h2 : channel.ID = getChannelID rmsg := by simpa using hguard
    exact ⟨fun _ => h2, fun _ => h1⟩
  · rw [if_neg he] at hguard
    have h1 : rmsg.Event ≠ EventAvatarDownload := by simpa using he
    have h2 : channel.ID ≠ getChannelID rmsg := by simpa using hguard
    exact ⟨fun hh => absurd hh h1, fun hh => absurd hh h2⟩

/-- Claim C5, witness: a concrete avatar-download message is delivered, and
it is delivered to its own origin channel. -/
theorem sendMessage_self_echo_instance :
    (SendMessage XStub gwC5 msgC5 destC5 chanC5 "").sent ≠ none ∧
    (msgC5.Event = EventAvatarDownload ↔ chanC5.ID = getChannelID msgC5) :=
  ⟨by decide, sendMessage_self_echo XStub gwC5 msgC5 destC5 chanC5 "" (by decide)⟩

/-! ## Claim C6: ParentID resolution in SendMessage -/

/-- Claim C6, amended: the outgoing copy's ParentID is the
destination-identity lookup on the stamped protocol and canonicalParentKey;
when that lookup is empty it falls back to canonicalParentKey ITSELF, and
only when canonicalParentKey is also empty while the origin message carries
a non-empty ParentID is the sentinel msg-parent-not-found installed. -/
theorem sendMessage_parentID_resolution (X : Externals) (gw : Gateway)
    (rmsg : Message) (dest : Bridge) (channel : ChannelInfo) (cpid : String)
    (m : Message)
    (hs : (SendMessage X gw rmsg dest channel cpid).sent = some m) :
    m.ParentID =
      (let r := getDestMsgID gw
          (((alookup gw.Bridges rmsg.Account).getD nilBridge).Protocol ++
            " " ++ cpid) dest channel
       if r = "" then
         (if cpid = "" then
           (if rmsg.ParentID = "" then "" else "msg-parent-not-found")
          else cpid)
       else r) := by
  by_cases hg : (if rmsg.Event == EventAvatarDownload then
      channel.ID != getChannelID rmsg
    else channel.ID == getChannelID rmsg) = true
  · simp only [SendMessage] at hs
    rw [if_pos hg] at hs
    cases hs
  · simp only [SendMessage] at hs
    rw [if_neg hg] at hs
    have hm := (Option.some.inj hs).symm
    rw [hm]
    rw [modifyUsername_snd, modifyAvatar_snd]
    simp only
    set r := getDestMsgID gw
      (((alookup gw.Bridges rmsg.Account).getD nilBridge).Protocol ++ " " ++
        cpid) dest channel with hr
    by_cases h1 : r = "" <;> by_cases h2 : cpid = "" <;>
      by_cases h3 : rmsg.ParentID = "" <;> simp [h1, h2, h3]

/-- Claim C6, counterexample: the claim as stated is false.  With a
non-empty canonicalParentKey whose destination-identity lookup is empty and
an origin message that carries a parent, the outgoing ParentID is the
canonicalParentKey itself, not the msg-parent-not-found sentinel. -/
theorem sendMessage_parent_fallback_cex :
    rmsgC6.ParentID = "p42" ∧
    getDestMsgID gwC6 ("irc p42") destC6 chanC6 = "" ∧
    (SendMessage XStub gwC6 rmsgC6 destC6 chanC6 "p42").sent.map
      Message.ParentID = some "p42" ∧
    ("p42" : String) ≠ "msg-parent-not-found" := by
  decide

/-- Claim C6, witness: with an empty canonicalParentKey and an origin parent
set, the sentinel is installed on the outgoing copy. -/
theorem sendMessage_parentID_resolution_instance :
    (SendMessage XStub gwC6 rmsgC6 destC6 chanC6 "").sent.map
      Message.ParentID = some "msg-parent-not-found" := by
  rcases hsent : (SendMessage XStub gwC6 rmsgC6 destC6 chanC6 "").sent
    with _ | m
  · exact absurd hsent (by decide)
  · have h := sendMessage_parentID_resolution XStub gwC6 rmsgC6 destC6 chanC6
      "" m hsent
    rw [Option.map_some', h]
    rfl

/-! ## Claim C7: FindCanonicalMsgID lookup semantics -/

/-- Claim C7, amended: FindCanonicalMsgID takes the protocol and the RAW
message ID; it returns the raw ID unchanged when protocol ++ " " ++ rawID is
itself a cache key, otherwise the first cache entry whose identity list
contains that composite yields its origin key with the first occurrence of
protocol ++ " " removed, otherwise the empty string. -/
theorem findCanonicalMsgID_spec (gw : Gateway) (protocol mID : String) :
    ((gw.Messages.any fun p => p.1 == protocol ++ " " ++ mID) = true →
      FindCanonicalMsgID gw protocol mID = mID) ∧
    (∀ p, (gw.Messages.any fun q => q.1 == protocol ++ " " ++ mID) = false →
      gw.Messages.find?
        (fun q => q.2.any fun d => d.ID == protocol ++ " " ++ mID) = some p →
      FindCanonicalMsgID gw protocol mID =
        replaceFirst p.1 (protocol ++ " ") "") ∧
    ((gw.Messages.any fun q => q.1 == protocol ++ " " ++ mID) = false →
      gw.Messages.find?
        (fun q => q.2.any fun d => d.ID == protocol ++ " " ++ mID) = none →
      FindCanonicalMsgID gw protocol mID = "") := by
  refine ⟨?_, ?_, ?_⟩
  · intro h1
    simp [FindCanonicalMsgID, h1]
  · intro p h1 h2
    simp [FindCanonicalMsgID, h1, h2]
  · intro h1 h2
    simp [FindCanonicalMsgID, h1, h2]

/-- Claim C7, counterexample: the claim as stated is false.  With the
composite form irc msg42 itself a cache key, calling the function on the
composite string returns the empty string, not msg42, because the function
expects the raw ID and prefixes the protocol again. -/
theorem findCanonicalMsgID_composite_cex :
    (gwC7.Messages.any fun p => p.1 == "irc msg42") = true ∧
    FindCanonicalMsgID gwC7 "irc" "irc msg42" = "" ∧
    ("" : String) ≠ "msg42" := by
  decide

/-- Claim C7, witness: called with the raw ID msg42 while irc msg42 is a
cache key, the raw ID is returned. -/
theorem findCanonicalMsgID_spec_instance :
    FindCanonicalMsgID gwC7 "irc" "msg42" = "msg42" :=
  (findCanonicalMsgID_spec gwC7 "irc" "msg42").1 (by decide)

/-! ## Claim C8: scripting-hook failures degrade to a no-op -/

/-- Claim C8: whenever the scripting hook fails (read, compile or run), the
message is left exactly as it was, and the rest of the pipeline proceeds as
if no script were configured at all: the failure is never fatal. -/
theorem modifyMessageTengo_failure_noop (X : Externals) (gw : Gateway)
    (m : Message) (err : String)
    (h : (modifyMessageTengo X gw.TengoModifyMessage m).2 = some err) :
    (modifyMessageTengo X gw.TengoModifyMessage m).1 = m ∧
    modifyMessage X gw m =
      modifyMessage X { gw with TengoModifyMessage := "" } m := by
  have h1 : (modifyMessageTengo X gw.TengoModifyMessage m).1 = m := by
    unfold modifyMessageTengo at h ⊢
    by_cases hf : (gw.TengoModifyMessage == "") = true
    · rw [if_pos hf] at h
      cases h
    · rw [if_neg hf] at h ⊢
      cases hr : X.tengoRead gw.TengoModifyMessage with
      | none => simp [hr]
      | some src =>
        simp only [hr] at h ⊢
        by_cases hc : X.tengoCompile src = true
        · simp only [hc, if_pos] at h ⊢
          cases hrun : X.tengoRun src m with
          | none => simp [hrun]
          | some tu =>
            rw [hrun] at h
            simp at h
        · simp [hc]
  refine ⟨h1, ?_⟩
  simp only [modifyMessage, h1]
  simp [modifyMessageTengo]

/-- Claim C8, witness: a concrete read failure leaves the message unchanged
and the pipeline result equal to the no-script pipeline. -/
theorem modifyMessageTengo_failure_noop_instance :
    (modifyMessageTengo XStub gwC8.TengoModifyMessage mC8).2 =
      some "read failure" ∧
    (modifyMessageTengo XStub gwC8.TengoModifyMessage mC8).1 = mC8 ∧
    modifyMessage XStub gwC8 mC8 =
      modifyMessage XStub { gwC8 with TengoModifyMessage := "" } mC8 :=
  ⟨by decide,
   (modifyMessageTengo_failure_noop XStub gwC8 mC8 "read failure" (by decide)).1,
   (modifyMessageTengo_failure_noop XStub gwC8 mC8 "read failure" (by decide)).2⟩

/-! ## Claim C9: which fields of the original SendMessage mutates -/

/-- Claim C9, amended: producing the destination copy leaves every field of
the inbound original unchanged EXCEPT Protocol, Username and Avatar, which
the avatar and username rewrites may change in place because gateway.go
passes the original rmsg, not the copy, to modifyAvatar and modifyUsername. -/
theorem sendMessage_preserves_other_fields (X : Externals) (gw : Gateway)
    (rmsg : Message) (dest : Bridge) (channel : ChannelInfo) (cpid : String) :
    (SendMessage X gw rmsg dest channel cpid).rmsgAfter.Text = rmsg.Text ∧
    (SendMessage X gw rmsg dest channel cpid).rmsgAfter.Channel = rmsg.Channel ∧
    (SendMessage X gw rmsg dest channel cpid).rmsgAfter.Account = rmsg.Account ∧
    (SendMessage X gw rmsg dest channel cpid).rmsgAfter.Event = rmsg.Event ∧
    (SendMessage X gw rmsg dest channel cpid).rmsgAfter.Gateway = rmsg.Gateway ∧
    (SendMessage X gw rmsg dest channel cpid).rmsgAfter.ParentID = rmsg.ParentID ∧
    (SendMessage X gw rmsg dest channel cpid).rmsgAfter.ID = rmsg.ID ∧
    (SendMessage X gw rmsg dest channel cpid).rmsgAfter.Extra = rmsg.Extra := by
  by_cases hg : (if rmsg.Event == EventAvatarDownload then
      channel.ID != getChannelID rmsg
    else channel.ID == getChannelID rmsg) = true
  · simp only [SendMessage]
    rw [if_pos hg]
    exact ⟨rfl, rfl, rfl, rfl, rfl, rfl, rfl, rfl⟩
  · simp only [SendMessage]
    rw [if_neg hg]
    simp [modifyUsername_snd, modifyAvatar_snd]

/-- Claim C9, counterexample: the claim as stated is false.  Dispatching a
message that carries no avatar through a destination with an IconURL
template mutates the inbound original: its Avatar field is rewritten to the
rendered icon URL, so the original is not left unchanged. -/
theorem sendMessage_mutates_original_cex :
    rmsgC9.Avatar = "" ∧
    (SendMessage XStub gwC6 rmsgC9 destC9 chanC6 "").rmsgAfter.Avatar =
      "http://i/alice" ∧
    (SendMessage XStub gwC6 rmsgC9 destC9 chanC6 "").rmsgAfter ≠ rmsgC9 := by
  decide

/-! ## Claim C1: direction merging in the channel map -/

/-- One mapChannelConfig iteration leaves the descriptor stored under every
other ID untouched. -/
theorem step_lookup_ne (gwName : String) (chans : Channels) (br : BridgeCfg)
    (d : String) (ID' : String) (hne : ID' ≠ cfgID br) :
    alookup (mapChannelConfigOk gwName chans br d) ID' = alookup chans ID' := by
  simp only [mapChannelConfigOk]
  rw [alookup_aupdate, if_neg hne]
  cases h : alookup chans (cfgID br) with
  | none =>
    simp only [Option.elim_none]
    cases h2 : alookup chans ID' with
    | some v => exact alookup_append_some h2
    | none =>
      rw [alookup_append_none _ h2, alookup_cons,
        if_neg (fun hh => hne hh.symm), alookup_nil]
  | some c =>
    simp only [Option.elim_some]
    by_cases hd : (c.Direction != d) = true
    · rw [if_pos hd, alookup_aupdate, if_neg hne]
    · rw [if_neg hd]

/-- After one mapChannelConfig iteration, the descriptor under the entry's
own ID exists and its direction is the entry's direction when the ID was
absent, the stored direction when it already matched, and inout otherwise. -/
theorem step_dir_self (gwName : String) (chans : Channels) (br : BridgeCfg)
    (d : String) :
    ∃ ch, alookup (mapChannelConfigOk gwName chans br d) (cfgID br) = some ch ∧
      ch.Direction = (alookup chans (cfgID br)).elim d
        (fun c => if c.Direction = d then c.Direction else "inout") := by
  simp only [mapChannelConfigOk]
  cases h : alookup chans (cfgID br) with
  | none =>
    simp only [Option.elim_none]
    rw [alookup_aupdate, if_pos rfl, alookup_append_none _ h, alookup_cons,
      if_pos rfl]
    exact ⟨_, rfl, rfl⟩
  | some c =>
    simp only [Option.elim_some]
    by_cases hd : (c.Direction != d) = true
    · have hne : ¬ (c.Direction = d) := by simpa using hd
      rw [if_pos hd, alookup_aupdate, if_pos rfl, alookup_aupdate, if_pos rfl,
        h, if_neg hne]
      exact ⟨_, rfl, rfl⟩
    · have heq : c.Direction = d := by simpa using hd
      rw [if_neg hd, alookup_aupdate, if_pos rfl, h, if_pos heq]
      exact ⟨_, rfl, rfl⟩

/-- One mapChannelConfig iteration either keeps a stored descriptor's
direction or turns it into inout. -/
theorem step_dir_mono (gwName : String) (chans : Channels) (br : BridgeCfg)
    (d ID : String) (ch : ChannelInfo) (h : alookup chans ID = some ch) :
    ∃ ch', alookup (mapChannelConfigOk gwName chans br d) ID = some ch' ∧
      (ch'.Direction = ch.Direction ∨ ch'.Direction = "inout") := by
  by_cases hid : ID = cfgID br
  · subst hid
    obtain ⟨ch', h1, h2⟩ := step_dir_self gwName chans br d
    refine ⟨ch', h1, ?_⟩
    rw [h, Option.elim_some] at h2
    by_cases hd : ch.Direction = d
    · rw [if_pos hd] at h2
      exact Or.inl h2
    · rw [if_neg hd] at h2
      exact Or.inr h2
  · rw [step_lookup_ne gwName chans br d ID hid]
    exact ⟨ch, h, Or.inl rfl⟩

/-- step_dir_mono lifted over the fatal-exit wrapper. -/
theorem stepOpt_dir_mono (gwName : String) (chans : Channels) (br : BridgeCfg)
    (d : String) (chans1 : Channels)
    (hstep : mapChannelConfigStep gwName chans br d = some chans1)
    (ID : String) (ch : ChannelInfo) (h : alookup chans ID = some ch) :
    ∃ ch', alookup chans1 ID = some ch' ∧
      (ch'.Direction = ch.Direction ∨ ch'.Direction = "inout") := by
  unfold mapChannelConfigStep at hstep
  by_cases hf : cfgFatal br = true
  · rw [if_pos hf] at hstep
    cases hstep
  · rw [if_neg hf] at hstep
    rw [← Option.some.inj hstep]
    exact step_dir_mono gwName chans br d ID ch h

/-- After a successful iteration on an entry, the descriptor under the
entry's ID has the entry's direction or inout. -/
theorem step_dirOk_self (gwName : String) (chans : Channels) (br : BridgeCfg)
    (d : String) (chans1 : Channels)
    (hstep : mapChannelConfigStep gwName chans br d = some chans1) :
    ∃ ch, alookup chans1 (cfgID br) = some ch ∧
      (ch.Direction = d ∨ ch.Direction = "inout") := by
  unfold mapChannelConfigStep at hstep
  by_cases hf : cfgFatal br = true
  · rw [if_pos hf] at hstep
    cases hstep
  · rw [if_neg hf] at hstep
    rw [← Option.some.inj hstep]
    obtain ⟨ch, h1, h2⟩ := step_dir_self gwName chans br d
    refine ⟨ch, h1, ?_⟩
    cases hl : alookup chans (cfgID br) with
    | none =>
      rw [hl, Option.elim_none] at h2
      exact Or.inl h2
    | some c =>
      rw [hl, Option.elim_some] at h2
      by_cases hd : c.Direction = d
      · rw [if_pos hd] at h2
        exact Or.inl (h2.trans hd)
      · rw [if_neg hd] at h2
        exact Or.inr h2

/-- A successful iteration on an entry whose ID already stores a descriptor
of a different direction (or already inout) leaves inout stored there. -/
theorem step_merge (gwName : String) (chans : Channels) (br : BridgeCfg)
    (d2 : String) (chans1 : Channels) (ID d1 : String)
    (hid : cfgID br = ID)
    (hstep : mapChannelConfigStep gwName chans br d2 = some chans1)
    (hok : ∃ ch, alookup chans ID = some ch ∧
      (ch.Direction = d1 ∨ ch.Direction = "inout"))
    (hne : d1 ≠ d2) :
    ∃ ch', alookup chans1 ID = some ch' ∧ ch'.Direction = "inout" := by
  subst hid
  unfold mapChannelConfigStep at hstep
  by_cases hf : cfgFatal br = true
  · rw [if_pos hf] at hstep
    cases hstep
  · rw [if_neg hf] at hstep
    rw [← Option.some.inj hstep]
    obtain ⟨ch, hch, hd⟩ := hok
    obtain ⟨ch', h1, h2⟩ := step_dir_self gwName chans br d2
    refine ⟨ch', h1, ?_⟩
    rw [hch, Option.elim_some] at h2
    rcases hd with hd | hd
    · rw [if_neg (by rw [hd]; exact hne)] at h2
      exact h2
    · by_cases hd2 : ch.Direction = d2
      · rw [if_pos hd2] at h2
        exact h2.trans hd
      · rw [if_neg hd2] at h2
        exact h2

/-- Directions only ever persist or become inout across one whole
mapChannelConfig call. -/
theorem mapCfg_dir_mono (gwName : String) (cfg : List BridgeCfg) (d : String) :
    ∀ chans chansF, mapChannelConfig gwName cfg d chans = some chansF →
    ∀ ID ch, alookup chans ID = some ch →
    ∃ ch', alookup chansF ID = some ch' ∧
      (ch'.Direction = ch.Direction ∨ ch'.Direction = "inout") := by
  induction cfg with
  | nil =>
    intro chans chansF h ID ch hch
    rw [← Option.some.inj h]
    exact ⟨ch, hch, Or.inl rfl⟩
  | cons br rest ih =>
    intro chans chansF h ID ch hch
    unfold mapChannelConfig at h
    cases hstep : mapChannelConfigStep gwName chans br d with
    | none =>
      rw [hstep] at h
      cases h
    | some c1 =>
      rw [hstep] at h
      obtain ⟨ch1, hch1, hd1⟩ := stepOpt_dir_mono gwName chans br d c1 hstep ID ch hch
      obtain ⟨ch2, hch2, hd2⟩ := ih c1 chansF h ID ch1 hch1
      refine ⟨ch2, hch2, ?_⟩
      rcases hd1 with h1 | h1 <;> rcases hd2 with h2 | h2
      · exact Or.inl (h2.trans h1)
      · exact Or.inr h2
      · exact Or.inr (h2.trans h1)
      · exact Or.inr h2

/-- Directions only ever persist or become inout across a sequence of
mapChannelConfig calls. -/
theorem run_dir_mono (gwName : String)
    (calls : List (List BridgeCfg × String)) :
    ∀ chans chansF, runMapCalls gwName calls chans = some chansF →
    ∀ ID ch, alookup chans ID = some ch →
    ∃ ch', alookup chansF ID = some ch' ∧
      (ch'.Direction = ch.Direction ∨ ch'.Direction = "inout") := by
  induction calls with
  | nil =>
    intro chans chansF h ID ch hch
    rw [← Option.some.inj h]
    exact ⟨ch, hch, Or.inl rfl⟩
  | cons x rest ih =>
    intro chans chansF h ID ch hch
    obtain ⟨cfg, d⟩ := x
    unfold runMapCalls at h
    cases hm : mapChannelConfig gwName cfg d chans with
    | none =>
      rw [hm] at h
      cases h
    | some c1 =>
      rw [hm] at h
      obtain ⟨ch1, hch1, hd1⟩ := mapCfg_dir_mono gwName cfg d chans c1 hm ID ch hch
      obtain ⟨ch2, hch2, hd2⟩ := ih c1 chansF h ID ch1 hch1
      refine ⟨ch2, hch2, ?_⟩
      rcases hd1 with h1 | h1 <;> rcases hd2 with h2 | h2
      · exact Or.inl (h2.trans h1)
      · exact Or.inr h2
      · exact Or.inr (h2.trans h1)
      · exact Or.inr h2

/-- An inout descriptor stays inout across a sequence of mapChannelConfig
calls. -/
theorem run_keeps_inout (gwName : String)
    (calls : List (List BridgeCfg × String)) (chans chansF : Channels)
    (h : runMapCalls gwName calls chans = some chansF) (ID : String)
    (ch : ChannelInfo) (hch : alookup chans ID = some ch)
    (hdir : ch.Direction = "inout") :
    ∃ ch', alookup chansF ID = some ch' ∧ ch'.Direction = "inout" := by
  obtain ⟨ch', h1, h2⟩ := run_dir_mono gwName calls chans chansF h ID ch hch
  refine ⟨ch', h1, ?_⟩
  rcases h2 with h2 | h2
  · exact h2.trans hdir
  · exact h2

/-- The invariant direction-is-d1-or-inout survives one mapChannelConfig
call. -/
theorem mapCfg_dirOk (gwName : String) (cfg : List BridgeCfg) (d : String)
    (chans chansF : Channels)
    (h : mapChannelConfig gwName cfg d chans = some chansF)
    (ID d1 : String)
    (hok : ∃ ch, alookup chans ID = some ch ∧
      (ch.Direction = d1 ∨ ch.Direction = "inout")) :
    ∃ ch, alookup chansF ID = some ch ∧
      (ch.Direction = d1 ∨ ch.Direction = "inout") := by
  obtain ⟨ch, hch, hd⟩ := hok
  obtain ⟨ch', h1, h2⟩ := mapCfg_dir_mono gwName cfg d chans chansF h ID ch hch
  refine ⟨ch', h1, ?_⟩
  rcases h2 with h2 | h2
  · rcases hd with hd | hd
    · exact Or.inl (h2.trans hd)
    · exact Or.inr (h2.trans hd)
  · exact Or.inr h2

/-- The invariant direction-is-d1-or-inout survives a sequence of
mapChannelConfig calls. -/
theorem run_dirOk (gwName : String) (calls : List (List BridgeCfg × String))
    (chans chansF : Channels)
    (h : runMapCalls gwName calls chans = some chansF) (ID d1 : String)
    (hok : ∃ ch, alookup chans ID = some ch ∧
      (ch.Direction = d1 ∨ ch.Direction = "inout")) :
    ∃ ch, alookup chansF ID = some ch ∧
      (ch.Direction = d1 ∨ ch.Direction = "inout") := by
  obtain ⟨ch, hch, hd⟩ := hok
  obtain ⟨ch', h1, h2⟩ := run_dir_mono gwName calls chans chansF h ID ch hch
  refine ⟨ch', h1, ?_⟩
  rcases h2 with h2 | h2
  · rcases hd with hd | hd
    · exact Or.inl (h2.trans hd)
    · exact Or.inr (h2.trans hd)
  · exact Or.inr h2

/-- An inout descriptor stays inout across one mapChannelConfig call. -/
theorem mapCfg_keeps_inout (gwName : String) (cfg : List BridgeCfg)
    (d : String) (chans chansF : Channels)
    (h : mapChannelConfig gwName cfg d chans = some chansF) (ID : String)
    (ch : ChannelInfo) (hch : alookup chans ID = some ch)
    (hdir : ch.Direction = "inout") :
    ∃ ch', alookup chansF ID = some ch' ∧ ch'.Direction = "inout" := by
  obtain ⟨ch', h1, h2⟩ := mapCfg_dir_mono gwName cfg d chans chansF h ID ch hch
  refine ⟨ch', h1, ?_⟩
  rcases h2 with h2 | h2
  · exact h2.trans hdir
  · exact h2

/-- Splits a run of mapChannelConfig calls around one designated call. -/
theorem run_split (gwName : String) (pre : List (List BridgeCfg × String)) :
    ∀ (x : List BridgeCfg × String) (post : List (List BridgeCfg × String))
      (chans chansF : Channels),
    runMapCalls gwName (pre ++ x :: post) chans = some chansF →
    ∃ c1 c2, runMapCalls gwName pre chans = some c1 ∧
      mapChannelConfig gwName x.1 x.2 c1 = some c2 ∧
      runMapCalls gwName post c2 = some chansF := by
  induction pre with
  | nil =>
    intro x post chans chansF h
    obtain ⟨cfg, d⟩ := x
    rw [List.nil_append] at h
    unfold runMapCalls at h
    cases hm : mapChannelConfig gwName cfg d chans with
    | none =>
      rw [hm] at h
      cases h
    | some c2 =>
      rw [hm] at h
      exact ⟨chans, c2, rfl, hm, h⟩
  | cons y rest ih =>
    intro x post chans chansF h
    obtain ⟨cfg, d⟩ := y
    rw [List.cons_append] at h
    unfold runMapCalls at h
    cases hm : mapChannelConfig gwName cfg d chans with
    | none =>
      rw [hm] at h
      cases h
    | some c1 =>
      rw [hm] at h
      obtain ⟨a, b, h1, h2, h3⟩ := ih x post c1 chansF h
      refine ⟨a, b, ?_, h2, h3⟩
      show runMapCalls gwName ((cfg, d) :: rest) chans = some a
      unfold runMapCalls
      rw [hm]
      exact h1

/-- Splits one mapChannelConfig call around one designated entry. -/
theorem mapCfg_split (gwName : String) (d : String) (l1 : List BridgeCfg) :
    ∀ (e : BridgeCfg) (l2 : List BridgeCfg) (chans chansF : Channels),
    mapChannelConfig gwName (l1 ++ e :: l2) d chans = some chansF →
    ∃ c1 c2, mapChannelConfig gwName l1 d chans = some c1 ∧
      mapChannelConfigStep gwName c1 e d = some c2 ∧
      mapChannelConfig gwName l2 d c2 = some chansF := by
  induction l1 with
  | nil =>
    intro e l2 chans chansF h
    rw [List.nil_append] at h
    unfold mapChannelConfig at h
    cases hm : mapChannelConfigStep gwName chans e d with
    | none =>
      rw [hm] at h
      cases h
    | some c2 =>
      rw [hm] at h
      exact ⟨chans, c2, rfl, hm, h⟩
  | cons y rest ih =>
    intro e l2 chans chansF h
    rw [List.cons_append] at h
    unfold mapChannelConfig at h
    cases hm : mapChannelConfigStep gwName chans y d with
    | none =>
      rw [hm] at h
      cases h
    | some c1 =>
      rw [hm] at h
      obtain ⟨a, b, h1, h2, h3⟩ := ih e l2 c1 chansF h
      refine ⟨a, b, ?_, h2, h3⟩
      show mapChannelConfig gwName (y :: rest) d chans = some a
      unfold mapChannelConfig
      rw [hm]
      exact h1

/-- Claim C1: across any sequence of mapChannelConfig calls (directions in
any order), whenever two entries resolve to the same ID with differing
directions the resulting descriptor's direction is inout, and a descriptor
that is inout is never downgraded by later entries. -/
theorem mapChannelConfig_direction_merge (gwName : String)
    (calls : List (List BridgeCfg × String)) (chans0 chansF : Channels)
    (hrun : runMapCalls gwName calls chans0 = some chansF) :
    (∀ pre c1 d1 mid c2 d2 post e1 e2,
      calls = pre ++ ((c1, d1) :: (mid ++ ((c2, d2) :: post))) →
      e1 ∈ c1 → e2 ∈ c2 → cfgID e1 = cfgID e2 → d1 ≠ d2 →
      ∃ ch, alookup chansF (cfgID e2) = some ch ∧ ch.Direction = "inout") ∧
    (∀ ID ch, alookup chans0 ID = some ch → ch.Direction = "inout" →
      ∃ ch', alookup chansF ID = some ch' ∧ ch'.Direction = "inout") := by
  constructor
  · intro pre c1 d1 mid c2 d2 post e1 e2 hcalls he1 he2 hid hne
    subst hcalls
    obtain ⟨s1, s2, hpre, hc1, hrest⟩ :=
      run_split gwName pre (c1, d1) (mid ++ ((c2, d2) :: post)) chans0 chansF
        hrun
    obtain ⟨s3, s4, hmid, hc2, hpost⟩ :=
      run_split gwName mid (c2, d2) post s2 chansF hrest
    obtain ⟨l1, r1, hc1eq⟩ := List.append_of_mem he1
    rw [hc1eq] at hc1
    obtain ⟨t1, t2, hl1, hstep1, hr1⟩ :=
      mapCfg_split gwName d1 l1 e1 r1 s1 s2 hc1
    have hok2 := step_dirOk_self gwName t1 e1 d1 t2 hstep1
    have hokS2 := mapCfg_dirOk gwName r1 d1 t2 s2 hr1 (cfgID e1) d1 hok2
    have hokS3 := run_dirOk gwName mid s2 s3 hmid (cfgID e1) d1 hokS2
    obtain ⟨l2, r2, hc2eq⟩ := List.append_of_mem he2
    rw [hc2eq] at hc2
    obtain ⟨u1, u2, hl2, hstep2, hr2⟩ :=
      mapCfg_split gwName d2 l2 e2 r2 s3 s4 hc2
    have hokU1 := mapCfg_dirOk gwName l2 d2 s3 u1 hl2 (cfgID e1) d1 hokS3
    obtain ⟨chA, hA1, hA2⟩ :=
      step_merge gwName u1 e2 d2 u2 (cfgID e1) d1 hid.symm hstep2 hokU1 hne
    obtain ⟨chB, hB1, hB2⟩ :=
      mapCfg_keeps_inout gwName r2 d2 u2 s4 hr2 (cfgID e1) chA hA1 hA2
    obtain ⟨chC, hC1, hC2⟩ :=
      run_keeps_inout gwName post s4 chansF hpost (cfgID e1) chB hB1 hB2
    rw [← hid]
    exact ⟨chC, hC1, hC2⟩
  · intro ID ch h1 h2
    exact run_keeps_inout gwName calls chans0 chansF hrun ID ch h1 h2

/-- Claim C1, witness: the concrete entry eW1 processed with direction in
and eW2 with direction out merge to an inout descriptor, and a concrete
pre-existing inout descriptor survives a later in-direction call. -/
theorem mapChannelConfig_direction_merge_instance :
    (alookup chansFW (cfgID eW2)).map ChannelInfo.Direction = some "inout" ∧
    (alookup chansGW "ca").map ChannelInfo.Direction = some "inout" := by
  constructor
  · obtain ⟨ch, h1, h2⟩ :=
      (mapChannelConfig_direction_merge "g" callsW [] chansFW (by rfl)).1
        [] [eW1] "in" [] [eW2] "out" [] eW1 eW2 rfl (by decide) (by decide)
        rfl (by decide)
    rw [h1, Option.map_some', h2]
  · obtain ⟨ch, h1, h2⟩ :=
      (mapChannelConfig_direction_merge "g" [([eW1], "in")] chans0W chansGW
        (by rfl)).2 "ca" chW0 (by decide) rfl
    rw [h1, Option.map_some', h2]
